import Mathlib

set_option autoImplicit false

/-!
Shallow embedding of the Infradario/infradar-dashboard client (TypeScript/React).
The modelled units are:

* `src/lib/api.ts` — the `request` fetch wrapper and the `api` endpoint table
  (the repository contains two revisions of `api.ts`; the later revision adds
  the dashboard endpoints `getTopology` … `getServiceMesh` and is the one
  embedded here, it is a strict superset of the earlier one);
* `src/hooks/useCluster.tsx` — `ClusterProvider` state (selected cluster);
* `src/hooks/useTheme.tsx` — theme mode persistence;
* `src/pages/AppMesh.tsx` — the force-directed layout loop and edge filtering;
* `src/pages/Security.tsx` — score colouring;
* `src/pages/Simulator.tsx` — `formatBytes`.

JavaScript numbers are modelled as real numbers (ℚ where the code only ever
meets finite decimal data); JSON values are modelled structurally; `localStorage`
is an association list of string pairs.
-/

namespace Infradar

/-- JSON value as produced by `res.json()` / consumed by `JSON.stringify`. -/
inductive Json where
  | null
  | bool (b : Bool)
  | num (q : ℚ)
  | str (s : String)
  | arr (elems : List Json)
  | obj (fields : List (String × Json))

/-- Model of the browser `localStorage`: an association list, most recent
write first. -/
abbrev Store := List (String × String)

/-- Model of `localStorage.getItem` (null becomes `none`). -/
def getItem (store : Store) (key : String) : Option String :=
  (store.find? (fun kv => kv.1 == key)).map (·.2)

/-- Model of `localStorage.setItem`. -/
def setItem (store : Store) (key value : String) : Store :=
  (key, value) :: store.filter (fun kv => kv.1 != key)

/-- HTTP method of a fetch call (`fetch` defaults to GET). -/
inductive Method where
  | GET
  | POST
  | DELETE
deriving DecidableEq, Repr

/-- The request a member of the `api` table hands to `fetch`: method, path
(the part before `?`), the query-string parameters in insertion order
(`URLSearchParams` of the blast-radius endpoint), and the JSON request body
(`JSON.stringify` is modelled structurally). -/
structure RequestSpec where
  method : Method
  path : String
  query : List (String × String)
  body : Option Json

namespace api

/-- GET endpoint with no query and no body. -/
def get (path : String) : RequestSpec :=
  { method := .GET, path := path, query := [], body := none }

def getClusters : RequestSpec :=
  get "/api/v1/clusters"

def getCluster (id : String) : RequestSpec :=
  get ("/api/v1/clusters/" ++ id)

def deleteCluster (id : String) : RequestSpec :=
  { method := .DELETE, path := "/api/v1/clusters/" ++ id, query := [], body := none }

def getLatestSnapshot (clusterId : String) : RequestSpec :=
  get ("/api/v1/clusters/" ++ clusterId ++ "/snapshots/latest")

def getSnapshots (clusterId : String) : RequestSpec :=
  get ("/api/v1/clusters/" ++ clusterId ++ "/snapshots")

def getSecurityReport (clusterId : String) : RequestSpec :=
  get ("/api/v1/clusters/" ++ clusterId ++ "/security")

def getAttackPaths (clusterId : String) : RequestSpec :=
  get ("/api/v1/clusters/" ++ clusterId ++ "/attack-paths")

def simulate (clusterId : String) (type : String) (params : List (String × Json)) :
    RequestSpec :=
  { method := .POST
    path := "/api/v1/clusters/" ++ clusterId ++ "/simulate"
    query := []
    body := some (.obj [("type", .str type), ("params", .obj params)]) }

def getCosts (clusterId : String) : RequestSpec :=
  get ("/api/v1/clusters/" ++ clusterId ++ "/costs")

def getBlastRadius (clusterId : String) (targetType : String) (target : String)
    (namespace_ : Option String) : RequestSpec :=
  let params := [("type", targetType), ("target", target)]
  let params := match namespace_ with
    | some ns => params ++ [("namespace", ns)]
    | none => params
  { method := .GET
    path := "/api/v1/clusters/" ++ clusterId ++ "/blast-radius"
    query := params
    body := none }

def getTimeline (clusterId : String) : RequestSpec :=
  get ("/api/v1/clusters/" ++ clusterId ++ "/timeline")

def getServiceMesh (clusterId : String) : RequestSpec :=
  get ("/api/v1/clusters/" ++ clusterId ++ "/service-mesh")

end api

/-! ### Theme persistence (`src/hooks/useTheme.tsx`) -/

/-- Theme mode union type of `useTheme.tsx`. -/
inductive ThemeMode where
  | dark
  | light
  | auto
deriving DecidableEq, Repr

/-- Serialisation of a mode, as written to `localStorage` by `setMode`. -/
def ThemeMode.toStr : ThemeMode → String
  | .dark => "dark"
  | .light => "light"
  | .auto => "auto"

/-- Store update performed by `setMode` (`localStorage.setItem('infradar-theme', m)`). -/
def setModeStore (store : Store) (m : ThemeMode) : Store :=
  setItem store "infradar-theme" m.toStr

/-- Initial mode computed by `ThemeProvider`: the saved value when it is one of
the three literals, `'auto'` otherwise (including when nothing is saved). -/
def initThemeMode (store : Store) : ThemeMode :=
  match getItem store "infradar-theme" with
  | some saved =>
    if saved == "dark" then .dark
    else if saved == "light" then .light
    else if saved == "auto" then .auto
    else .auto
  | none => .auto

/-! ### `formatBytes` (`src/pages/Simulator.tsx`) -/

/-- Rounding performed by JavaScript `toFixed`: nearest representable with the
requested number of digits, ties towards the larger value. For the nonnegative
arguments `formatBytes` produces this is `⌊10 ^ digits * x + 1 / 2⌋`. -/
def jsRoundScaled (x : ℚ) (scale : ℚ) : ℤ :=
  ⌊x * scale + 1 / 2⌋

/-- Rendering of `x.toFixed(1)` for nonnegative `x`. -/
def toFixed1 (x : ℚ) : String :=
  let n := (jsRoundScaled x 10).toNat
  toString (n / 10) ++ "." ++ toString (n % 10)

/-- Rendering of `x.toFixed(0)` for nonnegative `x`. -/
def toFixed0 (x : ℚ) : String :=
  toString (jsRoundScaled x 1).toNat

/-- The `formatBytes` helper of the simulator page. -/
def formatBytes (bytes : ℚ) : String :=
  if bytes = 0 then "0"
  else
    let gb := bytes / 1024 / 1024 / 1024
    if gb ≥ 1 then toFixed1 gb ++ " GiB"
    else toFixed0 (bytes / 1024 / 1024) ++ " MiB"

/-! ### Security score colours (`src/pages/Security.tsx`) -/

/-- Tailwind class chosen for the numeric score text in the cluster card. -/
def scoreTextClass (score : ℚ) : String :=
  if score ≥ 70 then "text-emerald-400"
  else if score ≥ 40 then "text-yellow-400"
  else "text-red-400"

/-- Stroke colour chosen by the `ScoreRing` component. -/
def scoreRingColor (score : ℚ) : String :=
  if score ≥ 70 then "#34d399" else if score ≥ 40 then "#fbbf24" else "#ef4444"

/-- The three colour bands the two renderings use. -/
inductive Band where
  | green
  | yellow
  | red
deriving DecidableEq, Repr

/-- Band a score-text class belongs to. -/
def bandOfTextClass (c : String) : Band :=
  if c == "text-emerald-400" then .green
  else if c == "text-yellow-400" then .yellow
  else .red

/-- Band a ring stroke colour belongs to. -/
def bandOfRingColor (c : String) : Band :=
  if c == "#34d399" then .green else if c == "#fbbf24" then .yellow else .red

/-! ### Cluster selection (`src/hooks/useCluster.tsx`) -/

/-- The `Cluster` record of `api.ts`. -/
structure Cluster where
  id : String
  name : String
  provider : String
  api_key : String
  status : String
  last_seen_at : Option String
  created_at : String
deriving DecidableEq, Repr

/-- The state `ClusterProvider` keeps: the `selectedId` React state and the
backing `localStorage` (the two are updated together). -/
structure ClusterState where
  selectedId : Option String
  store : Store
deriving Repr

/-- The lookup `clusters.find(c => c.id === selectedId)` deriving `selected`
(`|| null` is the `none` case). -/
def selectedOf (clusters : List Cluster) (selectedId : Option String) :
    Option Cluster :=
  match selectedId with
  | some sid => clusters.find? (fun c => c.id == sid)
  | none => none

/-- Lookup following the spec's words instead of the code: a cluster is
identified by its API key, so `selected` would be found by `api_key`. -/
def selectedOfSpecApiKey (clusters : List Cluster) (selectedId : Option String) :
    Option Cluster :=
  match selectedId with
  | some sid => clusters.find? (fun c => c.api_key == sid)
  | none => none

/-- JavaScript truthiness of the `saved` string (`!saved`): `getItem` returned
null or the empty string. -/
def savedFalsy : Option String → Bool
  | none => true
  | some s => s == ""

/-- The `.then` callback of `fetchClusters`: when the list is non-empty and the
saved id is falsy or matches no cluster, select the first cluster and persist
its id. -/
def applyFetch (st : ClusterState) (list : List Cluster) : ClusterState :=
  if 0 < list.length then
    let saved := getItem st.store "infradar-cluster"
    if savedFalsy saved ||
        (list.find? (fun c => some c.id == saved)).isNone then
      match list with
      | first :: _ =>
        { selectedId := some first.id
          store := setItem st.store "infradar-cluster" first.id }
      | [] => st
    else st
  else st

/-- The `selectCluster` callback: set the state id and persist it. -/
def selectCluster (st : ClusterState) (id : String) : ClusterState :=
  { selectedId := some id, store := setItem st.store "infradar-cluster" id }

/-! ### AppMesh force-directed layout (`src/pages/AppMesh.tsx`) -/

/-- A `ServiceMeshEdge` of the service-mesh response. -/
structure MeshEdge where
  source : String
  target : String
  type : String
deriving DecidableEq, Repr

/-- A simulation node: `SimNode extends ServiceMeshNode` with position and
velocity. Coordinates are real numbers; the optional `details` record takes no
part in the simulation or the filtering. The `namespace` field is spelled
`nspace` because `namespace` is a Lean keyword. -/
structure SimNode where
  id : String
  name : String
  nspace : String
  kind : String
  status : String
  x : ℝ
  y : ℝ
  vx : ℝ
  vy : ℝ

/-- The node filter of the render path: a node passes when the active filter is
`'all'` or equals its kind. -/
def passesFilter (filter : String) (n : SimNode) : Bool :=
  filter == "all" || n.kind == filter

/-- The id set `filteredNodeIds` (a JS `Set`, modelled by the underlying list;
only membership is consumed). -/
def filteredNodeIds (filter : String) (ns : List SimNode) : List String :=
  (ns.filter (passesFilter filter)).map (·.id)

/-- The rendered edge list: edges whose two endpoints are both in
`filteredNodeIds`. -/
def visibleEdges (filter : String) (ns : List SimNode) (edges : List MeshEdge) :
    List MeshEdge :=
  edges.filter fun e =>
    (filteredNodeIds filter ns).contains e.source &&
    (filteredNodeIds filter ns).contains e.target

/-- Index of the node `nodeMap.get(nid)` designates: `Map.set` is applied to
the nodes in order, so a duplicated id resolves to its last occurrence. -/
def lastIdxOf (ns : List SimNode) (nid : String) : Option Nat :=
  (List.range ns.length).foldl
    (fun acc i => if (ns[i]?).any (fun n => n.id == nid) then some i else acc)
    none

noncomputable section

/-- Layout viewport width. -/
def width : ℝ := 900

/-- Layout viewport height. -/
def height : ℝ := 600

/-- Distance guard `Math.sqrt(dx*dx + dy*dy) || 1`: the falsy value 0 becomes 1. -/
def distOr1 (dx dy : ℝ) : ℝ :=
  let d := Real.sqrt (dx * dx + dy * dy)
  if d = 0 then 1 else d

/-- Velocity reset at the top of each tick. -/
def zeroVelocities (ns : List SimNode) : List SimNode :=
  ns.map fun n => { n with vx := 0, vy := 0 }

/-- One repulsion interaction between the nodes at indices `i` and `j`. -/
def applyRepulsion (ns : List SimNode) (i j : Nat) : List SimNode :=
  match ns[i]?, ns[j]? with
  | some a, some b =>
    let dx := b.x - a.x
    let dy := b.y - a.y
    let dist := distOr1 dx dy
    let force := 800 / (dist * dist)
    let fx := dx / dist * force
    let fy := dy / dist * force
    let ns1 := ns.set i { a with vx := a.vx - fx, vy := a.vy - fy }
    ns1.set j { b with vx := b.vx + fx, vy := b.vy + fy }
  | _, _ => ns

/-- The repulsion double loop (`i` ascending, `j` from `i + 1`). -/
def repulsionPass (ns : List SimNode) : List SimNode :=
  (List.range ns.length).foldl
    (fun acc i =>
      (List.range acc.length).foldl
        (fun acc2 j => if i < j then applyRepulsion acc2 i j else acc2) acc)
    ns

/-- One attraction interaction along an edge. Both endpoints are resolved
through `nodeMap`; a missing endpoint skips the edge (`if (!a || !b) continue`).
The target is re-read after the source update, matching the mutation of shared
references when the edge is a self-loop. -/
def applyAttraction (ns : List SimNode) (e : MeshEdge) : List SimNode :=
  match lastIdxOf ns e.source, lastIdxOf ns e.target with
  | some i, some j =>
    match ns[i]?, ns[j]? with
    | some a, some b =>
      let dx := b.x - a.x
      let dy := b.y - a.y
      let dist := distOr1 dx dy
      let force := (dist - 120) * 0.01
      let fx := dx / dist * force
      let fy := dy / dist * force
      let ns1 := ns.set i { a with vx := a.vx + fx, vy := a.vy + fy }
      match ns1[j]? with
      | some b2 => ns1.set j { b2 with vx := b2.vx - fx, vy := b2.vy - fy }
      | none => ns1
    | _, _ => ns
  | _, _ => ns

/-- Attraction over all edges, in order. -/
def attractionPass (edges : List MeshEdge) (ns : List SimNode) : List SimNode :=
  edges.foldl applyAttraction ns

/-- Centre gravity. -/
def gravityPass (ns : List SimNode) : List SimNode :=
  ns.map fun n =>
    { n with
      vx := n.vx + (width / 2 - n.x) * 0.005
      vy := n.vy + (height / 2 - n.y) * 0.005 }

/-- Damping, integration and clamping of one node. -/
def integrateNode (n : SimNode) : SimNode :=
  let vx := n.vx * 0.85
  let vy := n.vy * 0.85
  let x := n.x + vx
  let y := n.y + vy
  { n with
    vx := vx
    vy := vy
    x := max 40 (min (width - 40) x)
    y := max 40 (min (height - 40) y) }

/-- Damping, integration and clamping of every node. -/
def integratePass (ns : List SimNode) : List SimNode :=
  ns.map integrateNode

/-- State of the animation loop: the mutable node array and the tick counter. -/
structure SimState where
  nodes : List SimNode
  tick : Nat

/-- The tick bound `maxTicks = 300`. -/
def maxTicks : Nat := 300

/-- One invocation of `simulate`: the four force passes followed by
integration, then `tick++`. -/
def simulateTick (edges : List MeshEdge) (s : SimState) : SimState :=
  { nodes :=
      integratePass (gravityPass (attractionPass edges
        (repulsionPass (zeroVelocities s.nodes))))
    tick := s.tick + 1 }

/-- The guard deciding whether another animation frame is requested after an
invocation (`if (tick < maxTicks) requestAnimationFrame(simulate)`). -/
def schedulesNextFrame (s : SimState) : Bool :=
  decide (s.tick < maxTicks)

/-! ### Sample inputs used by the witnesses -/

/-- A sample mesh node at the viewport centre. -/
def meshNodeW : SimNode :=
  { id := "n1", name := "pod-1", nspace := "default", kind := "Pod"
    status := "healthy", x := 450, y := 300, vx := 0, vy := 0 }

/-- A sample simulation state holding one node. -/
def simStateW : SimState :=
  { nodes := [meshNodeW], tick := 0 }

end

/-- A sample cluster whose `id` and `api_key` differ. -/
def clusterW : Cluster :=
  { id := "c-1", name := "prod", provider := "aws", api_key := "key-9"
    status := "active", last_seen_at := none, created_at := "2024-01-01" }

/-! ## Theorems -/

/-- C1: for every cluster id string `c`, the api client builds exactly the
documented request paths — `getAttackPaths` GETs `/api/v1/clusters/c/attack-paths`,
`simulate` POSTs to `/api/v1/clusters/c/simulate`, `getCosts` GETs
`/api/v1/clusters/c/costs`, `getBlastRadius` GETs `/api/v1/clusters/c/blast-radius`
with query parameters `type` and `target`, `getSecurityReport` GETs
`/api/v1/clusters/c/security`, and `getServiceMesh` GETs
`/api/v1/clusters/c/service-mesh`. -/
theorem api_builds_documented_paths (c type target : String)
    (params : List (String × Json)) :
    api.getAttackPaths c =
      { method := .GET, path := "/api/v1/clusters/" ++ c ++ "/attack-paths"
        query := [], body := none }
    ∧ (api.simulate c type params).method = .POST
    ∧ (api.simulate c type params).path = "/api/v1/clusters/" ++ c ++ "/simulate"
    ∧ api.getCosts c =
      { method := .GET, path := "/api/v1/clusters/" ++ c ++ "/costs"
        query := [], body := none }
    ∧ api.getBlastRadius c type target none =
      { method := .GET, path := "/api/v1/clusters/" ++ c ++ "/blast-radius"
        query := [("type", type), ("target", target)], body := none }
    ∧ api.getSecurityReport c =
      { method := .GET, path := "/api/v1/clusters/" ++ c ++ "/security"
        query := [], body := none }
    ∧ api.getServiceMesh c =
      { method := .GET, path := "/api/v1/clusters/" ++ c ++ "/service-mesh"
        query := [], body := none } :=
  ⟨rfl, rfl, rfl, rfl, rfl, rfl, rfl⟩

/-- C6: an edge is in `visibleEdges` exactly when both its source node and its
target node are present in the node list and pass the kind filter; in
particular an edge whose source or target id matches no node is never
rendered. -/
theorem visibleEdges_mem_iff (filter : String) (ns : List SimNode)
    (edges : List MeshEdge) (e : MeshEdge) :
    e ∈ visibleEdges filter ns edges ↔
      e ∈ edges
      ∧ (∃ n ∈ ns, n.id = e.source ∧ passesFilter filter n = true)
      ∧ (∃ n ∈ ns, n.id = e.target ∧ passesFilter filter n = true) := by
  simp only [visibleEdges, filteredNodeIds, List.mem_filter, Bool.and_eq_true,
    List.contains, List.elem_eq_mem, decide_eq_true_eq, List.mem_map,
    List.mem_filter]
  constructor
  · rintro ⟨he, ⟨ns', ⟨hns', hp⟩, hid⟩, ⟨nt, ⟨hnt, hpt⟩, hidt⟩⟩
    exact ⟨he, ⟨ns', hns', hid, hp⟩, ⟨nt, hnt, hidt, hpt⟩⟩
  · rintro ⟨he, ⟨ns', hns', hid, hp⟩, ⟨nt, hnt, hidt, hpt⟩⟩
    exact ⟨he, ⟨ns', ⟨hns', hp⟩, hid⟩, ⟨nt, ⟨hnt, hpt⟩, hidt⟩⟩

/-- C7: storing any of the three theme modes round-trips through
`localStorage` key `infradar-theme`, and any other stored value (or absence)
initialises the mode to `auto`. -/
theorem theme_mode_roundtrip :
    (∀ (store : Store) (m : ThemeMode),
      getItem (setModeStore store m) "infradar-theme" = some m.toStr)
    ∧ (∀ (store : Store) (m : ThemeMode),
      initThemeMode (setModeStore store m) = m)
    ∧ (∀ (store : Store) (s : String),
        getItem store "infradar-theme" = some s →
        s ≠ "dark" → s ≠ "light" → s ≠ "auto" → initThemeMode store = .auto)
    ∧ (∀ store : Store,
        getItem store "infradar-theme" = none → initThemeMode store = .auto) := by
  refine ⟨?_, ?_, ?_, ?_⟩
  · intro store m
    simp [setModeStore, setItem, getItem]
  · intro store m
    have h : getItem (setModeStore store m) "infradar-theme" = some m.toStr := by
      simp [setModeStore, setItem, getItem]
    cases m <;> simp [initThemeMode, h, ThemeMode.toStr]
  · intro store s hs h1 h2 h3
    simp [initThemeMode, hs, h1, h2, h3]
  · intro store hs
    simp [initThemeMode, hs]

/-- C7 witness: round-trip at `dark`, fallback for an unknown stored value and
for an empty store. -/
theorem theme_mode_roundtrip_witness :
    getItem (setModeStore [] .dark) "infradar-theme" = some "dark"
    ∧ initThemeMode (setModeStore [] .dark) = .dark
    ∧ initThemeMode [("infradar-theme", "solarized")] = .auto
    ∧ initThemeMode [] = .auto :=
  ⟨theme_mode_roundtrip.1 [] .dark,
   theme_mode_roundtrip.2.1 [] .dark,
   theme_mode_roundtrip.2.2.1 [("infradar-theme", "solarized")] "solarized" rfl
     (by decide) (by decide) (by decide),
   theme_mode_roundtrip.2.2.2 [] rfl⟩

/-- C9: the score text colour and the `ScoreRing` stroke colour are decided by
the same thresholds — green exactly when the score is at least 70, yellow
exactly when it is in `[40, 70)`, red exactly below 40 — so the two renderings
never disagree on the colour band. -/
theorem score_colour_bands_agree (s : ℚ) :
    bandOfTextClass (scoreTextClass s) = bandOfRingColor (scoreRingColor s)
    ∧ (bandOfTextClass (scoreTextClass s) = .green ↔ 70 ≤ s)
    ∧ (bandOfTextClass (scoreTextClass s) = .yellow ↔ 40 ≤ s ∧ s < 70)
    ∧ (bandOfTextClass (scoreTextClass s) = .red ↔ s < 40) := by
  unfold scoreTextClass scoreRingColor
  split_ifs with h1 h2
  · exact ⟨by decide, iff_of_true (by decide) h1,
      iff_of_false (by decide) (by rintro ⟨_, hb⟩; linarith),
      iff_of_false (by decide) (by intro h; linarith)⟩
  · exact ⟨by decide, iff_of_false (by decide) h1,
      iff_of_true (by decide) ⟨h2, lt_of_not_le h1⟩,
      iff_of_false (by decide) (by intro h; linarith)⟩
  · exact ⟨by decide, iff_of_false (by decide) h1,
      iff_of_false (by decide) (by rintro ⟨ha, _⟩; exact h2 ha),
      iff_of_true (by decide) (lt_of_not_le h2)⟩

/-- C8: `formatBytes 0 = '0'`; at least `2 ^ 30` bytes render as the GiB value
with one decimal place and the `' GiB'` suffix; strictly between 0 and
`2 ^ 30` bytes render as the MiB value rounded to an integer with the
`' MiB'` suffix. -/
theorem formatBytes_total_cases :
    formatBytes 0 = "0"
    ∧ (∀ b : ℚ, 2 ^ 30 ≤ b →
        formatBytes b = toFixed1 (b / 2 ^ 30) ++ " GiB")
    ∧ (∀ b : ℚ, 0 < b → b < 2 ^ 30 →
        formatBytes b = toFixed0 (b / 2 ^ 20) ++ " MiB") := by
  refine ⟨rfl, ?_, ?_⟩
  · intro b hb
    have hb0 : b ≠ 0 := by
      intro h
      rw [h] at hb
      norm_num at hb
    have heq : b / 1024 / 1024 / 1024 = b / 2 ^ 30 := by
      rw [div_div, div_div]
      norm_num
    have hgb : b / 1024 / 1024 / 1024 ≥ 1 := by
      rw [heq, ge_iff_le, le_div_iff₀ (by norm_num : (0:ℚ) < 2 ^ 30)]
      linarith
    simp only [formatBytes]
    rw [if_neg hb0, if_pos hgb, heq]
  · intro b h0 hlt
    have hb0 : b ≠ 0 := ne_of_gt h0
    have heq : b / 1024 / 1024 / 1024 = b / 2 ^ 30 := by
      rw [div_div, div_div]
      norm_num
    have hgb : ¬ b / 1024 / 1024 / 1024 ≥ 1 := by
      rw [heq, ge_iff_le, not_le, div_lt_one (by norm_num : (0:ℚ) < 2 ^ 30)]
      linarith
    have heq2 : b / 1024 / 1024 = b / 2 ^ 20 := by
      rw [div_div]
      norm_num
    simp only [formatBytes]
    rw [if_neg hb0, if_neg hgb, heq2]

/-- C8 witness: the three cases at 0, at exactly one GiB and at exactly one
MiB. -/
theorem formatBytes_total_cases_witness :
    formatBytes 0 = "0"
    ∧ formatBytes (2 ^ 30) = toFixed1 (2 ^ 30 / 2 ^ 30) ++ " GiB"
    ∧ formatBytes 1048576 = toFixed0 (1048576 / 2 ^ 20) ++ " MiB" :=
  ⟨formatBytes_total_cases.1,
   formatBytes_total_cases.2.1 (2 ^ 30) le_rfl,
   formatBytes_total_cases.2.2 1048576 (by norm_num) (by norm_num)⟩

/-- C3 counterexample: the client identifies a cluster by its `id` field, not
by `api_key` — resolving the sample cluster through its API key fails while
resolving it through its id succeeds, so the code's lookup disagrees with the
spec-modelled api-key lookup on the same input. -/
theorem cluster_identity_counterexample :
    selectedOf [clusterW] (some "key-9") = none
    ∧ selectedOfSpecApiKey [clusterW] (some "key-9") = some clusterW
    ∧ selectedOf [clusterW] (some "c-1") = some clusterW
    ∧ selectedOf [clusterW] (some "key-9") ≠
        selectedOfSpecApiKey [clusterW] (some "key-9") := by
  refine ⟨rfl, rfl, rfl, ?_⟩
  decide

/-- C3 (amended): every client operation that addresses a single registered
cluster identifies it by its `id` field — `selected` resolves an id to a
cluster bearing that `id`, `selectCluster` stores the id, and the paths of
`getCluster`, `deleteCluster` and `getLatestSnapshot` embed the id their call
sites pass (`c.id`); `api_key` is a separate credential field. -/
theorem cluster_identified_by_id (cs : List Cluster) (sid : String)
    (c : Cluster) (st : ClusterState) :
    (selectedOf cs (some sid) = some c → c ∈ cs ∧ c.id = sid)
    ∧ (selectCluster st sid).selectedId = some sid
    ∧ getItem (selectCluster st sid).store "infradar-cluster" = some sid
    ∧ api.getCluster c.id =
      { method := .GET, path := "/api/v1/clusters/" ++ c.id
        query := [], body := none }
    ∧ api.deleteCluster c.id =
      { method := .DELETE, path := "/api/v1/clusters/" ++ c.id
        query := [], body := none }
    ∧ api.getLatestSnapshot c.id =
      { method := .GET
        path := "/api/v1/clusters/" ++ c.id ++ "/snapshots/latest"
        query := [], body := none } := by
  refine ⟨?_, rfl, ?_, rfl, rfl, rfl⟩
  · intro h
    simp only [selectedOf] at h
    refine ⟨List.mem_of_find?_eq_some h, ?_⟩
    have hp := List.find?_some h
    simpa using hp
  · simp [selectCluster, setItem, getItem]

/-- C3 amended-claim witness: resolving the sample cluster's id returns a
cluster with that id, and `selectCluster` stores it. -/
theorem cluster_identified_by_id_witness :
    (clusterW ∈ [clusterW] ∧ clusterW.id = "c-1")
    ∧ (selectCluster { selectedId := none, store := [] } "c-1").selectedId =
        some "c-1" :=
  ⟨(cluster_identified_by_id [clusterW] "c-1" clusterW
      { selectedId := none, store := [] }).1 rfl,
   (cluster_identified_by_id [clusterW] "c-1" clusterW
      { selectedId := none, store := [] }).2.1⟩

/-- C10: after `fetchClusters` the derived `selected` is null or an element of
the fetched list; and when the list is non-empty and the saved cluster id is
absent or matches no cluster of the list, the first cluster becomes the
selected one and its id is saved to `localStorage`. -/
theorem cluster_selection_invariant (st : ClusterState) (list : List Cluster) :
    (∀ c, selectedOf list (applyFetch st list).selectedId = some c →
      c ∈ list)
    ∧ (∀ h : list ≠ [],
        (getItem st.store "infradar-cluster" = none
          ∨ ∀ c ∈ list, getItem st.store "infradar-cluster" ≠ some c.id) →
        (applyFetch st list).selectedId = some (list.head h).id
        ∧ getItem (applyFetch st list).store "infradar-cluster" =
            some (list.head h).id
        ∧ selectedOf list (applyFetch st list).selectedId =
            some (list.head h)) := by
  constructor
  · intro c hc
    rcases hsel : (applyFetch st list).selectedId with _ | sid
    · rw [hsel] at hc
      simp [selectedOf] at hc
    · rw [hsel] at hc
      simp only [selectedOf] at hc
      exact List.mem_of_find?_eq_some hc
  · intro hne hcond
    obtain ⟨first, rest, rfl⟩ : ∃ f r, list = f :: r := by
      cases list with
      | nil => exact absurd rfl hne
      | cons f r => exact ⟨f, r, rfl⟩
    have hcondb : (savedFalsy (getItem st.store "infradar-cluster")
        || ((first :: rest).find?
            (fun c => some c.id == getItem st.store "infradar-cluster")
           ).isNone) = true := by
      rcases hcond with hnone | hall
      · simp [savedFalsy, hnone]
      · have hfind : (first :: rest).find?
            (fun c => some c.id == getItem st.store "infradar-cluster") =
            none := by
          rw [List.find?_eq_none]
          intro c hc hEq
          have hid : some c.id = getItem st.store "infradar-cluster" := by
            simpa using hEq
          exact hall c hc hid.symm
        simp [hfind]
    have happ : applyFetch st (first :: rest) =
        { selectedId := some first.id
          store := setItem st.store "infradar-cluster" first.id } := by
      simp only [applyFetch]
      rw [if_pos (by simp : 0 < (first :: rest).length), if_pos hcondb]
    refine ⟨by simp [happ], ?_, ?_⟩
    · rw [happ]
      simp [getItem, setItem]
    · rw [happ]
      simp only [selectedOf, List.head_cons]
      rw [List.find?_cons_of_pos _ (by simp)]

/-- C10 witness: with an empty store and the singleton list, the first (and
only) cluster becomes selected, its id is persisted, and `selected` resolves
to it. -/
theorem cluster_selection_invariant_witness :
    (applyFetch { selectedId := none, store := [] } [clusterW]).selectedId =
      some clusterW.id
    ∧ getItem (applyFetch { selectedId := none, store := [] }
        [clusterW]).store "infradar-cluster" = some clusterW.id
    ∧ selectedOf [clusterW] (applyFetch { selectedId := none, store := [] }
        [clusterW]).selectedId = some clusterW := by
  have h := (cluster_selection_invariant
      { selectedId := none, store := [] } [clusterW]).2
    (List.cons_ne_nil _ _) (Or.inl rfl)
  simpa using h

/-- Auxiliary: each invocation of `simulate` advances the tick counter by
exactly one. -/
theorem tick_iterate (edges : List MeshEdge) (k : Nat) (s : SimState) :
    ((simulateTick edges)^[k] s).tick = s.tick + k := by
  induction k generalizing s with
  | zero => simp
  | succ n ih =>
    rw [Function.iterate_succ_apply, ih]
    simp only [simulateTick]
    omega

/-- C4: starting from tick 0 the layout loop terminates after exactly 300
invocations — before each of the first 300 the scheduling guard
`tick < maxTicks` still holds, after the 300th the counter equals
`maxTicks = 300` and the guard fails, so no further animation frame is
requested. -/
theorem simulation_runs_exactly_300_ticks (edges : List MeshEdge)
    (s0 : SimState) (h : s0.tick = 0) :
    (∀ k, k < maxTicks →
      schedulesNextFrame ((simulateTick edges)^[k] s0) = true)
    ∧ ((simulateTick edges)^[maxTicks] s0).tick = maxTicks
    ∧ schedulesNextFrame ((simulateTick edges)^[maxTicks] s0) = false := by
  refine ⟨?_, ?_, ?_⟩
  · intro k hk
    simp [schedulesNextFrame, tick_iterate, h, hk]
  · rw [tick_iterate, h, Nat.zero_add]
  · simp [schedulesNextFrame, tick_iterate, h]

/-- C4 witness: the loop state after 300 invocations from a fresh state. -/
theorem simulation_runs_exactly_300_ticks_witness :
    ((simulateTick [])^[maxTicks] { nodes := [], tick := 0 }).tick = maxTicks
    ∧ schedulesNextFrame
        ((simulateTick [])^[maxTicks] { nodes := [], tick := 0 }) = false :=
  ⟨(simulation_runs_exactly_300_ticks [] { nodes := [], tick := 0 } rfl).2.1,
   (simulation_runs_exactly_300_ticks [] { nodes := [], tick := 0 } rfl).2.2⟩

/-- C5: after every simulation tick every node's position lies in the
40-margin bounding box of the 900 × 600 viewport, regardless of the previous
positions and of the input graph. -/
theorem layout_positions_clamped (edges : List MeshEdge) (s : SimState)
    (n : SimNode) (h : n ∈ (simulateTick edges s).nodes) :
    40 ≤ n.x ∧ n.x ≤ 860 ∧ 40 ≤ n.y ∧ n.y ≤ 560 := by
  have hnodes : (simulateTick edges s).nodes =
      (gravityPass (attractionPass edges
        (repulsionPass (zeroVelocities s.nodes)))).map integrateNode := rfl
  rw [hnodes] at h
  obtain ⟨m, _, rfl⟩ := List.mem_map.mp h
  simp only [integrateNode]
  refine ⟨le_max_left _ _, ?_, le_max_left _ _, ?_⟩
  · exact max_le (by norm_num)
      ((min_le_left _ _).trans (by norm_num [width]))
  · exact max_le (by norm_num)
      ((min_le_left _ _).trans (by norm_num [height]))

/-- Auxiliary: the sample one-node state keeps a non-empty node list through a
tick. -/
theorem simW_nodes_ne_nil : (simulateTick [] simStateW).nodes ≠ [] := by
  intro hc
  have hlen : (simulateTick [] simStateW).nodes.length = 1 := rfl
  rw [hc] at hlen
  simp at hlen

/-- C5 witness: the node of the sample state is inside the bounding box after
one tick. -/
theorem layout_positions_clamped_witness :
    40 ≤ ((simulateTick [] simStateW).nodes.head simW_nodes_ne_nil).x
    ∧ ((simulateTick [] simStateW).nodes.head simW_nodes_ne_nil).x ≤ 860
    ∧ 40 ≤ ((simulateTick [] simStateW).nodes.head simW_nodes_ne_nil).y
    ∧ ((simulateTick [] simStateW).nodes.head simW_nodes_ne_nil).y ≤ 560 :=
  layout_positions_clamped [] simStateW _ (List.head_mem simW_nodes_ne_nil)

end Infradar
